import Mathlib

/-!
Verification development for the `precinct-mapper` repository.

The development shallowly embeds the two core subsystems:

* the spatial hierarchy resolver and geometry sanitizer of
  `src/precinct_mapper/data/parser.py` (`StateParser._process_holes`,
  `StateParser._validate_boundary_results`,
  `StateParser._get_bounding_region_of_point`,
  `StateParser._get_bounding_region`, and the scoped-layer pass of
  `StateParser.parse`);
* the fetch-and-normalize pipeline of
  `src/precinct_mapper/data/fetcher.py` (`_get_boundaries_from_geojson`
  pagination, `_fetch_from_geojson` / `_fetch_from_shapefile` /
  `_fetch_from_gdb` skip logic, `_process_frame` normalization, and
  `StateDataFetcher.fetch` per-layer error isolation).

Shapely geometry primitives (`is_ccw`, `within`, `difference`, `area`,
`centroid`, `contains`, `representative_point`) are abstracted as an
operations record `GeoOps`; every theorem about code built on them is
stated for an arbitrary instance, and a small executable grid-cell
instance `gridOps` supplies concrete evaluations.
-/

namespace PrecinctMapper

/-- Abstraction of the shapely polygon primitives used by `parser.py`.
`containsPt p q` stands for `p.contains(q)`, which in shapely is exactly
`q.within(p)` for a point `q`. -/
structure GeoOps (Pt Poly : Type) where
  isCCW : Poly → Bool
  polyWithin : Poly → Poly → Bool
  difference : Poly → Poly → Poly
  area : Poly → ℚ
  centroid : Poly → Pt
  containsPt : Poly → Pt → Bool
  representativePoint : Poly → Pt

/-- A shapely `Polygon` or `MultiPolygon` value (the two cases
`_process_holes` accepts). -/
inductive Shape (Poly : Type) where
  | poly (p : Poly)
  | multi (parts : List Poly)
deriving DecidableEq, Repr

/-- A shapely `Point | Polygon | MultiPolygon` value, the argument type of
`StateParser._get_bounding_region`. -/
inductive PShape (Pt Poly : Type) where
  | pt (p : Pt)
  | poly (p : Poly)
  | multi (parts : List Poly)
deriving DecidableEq, Repr

variable {Pt Poly : Type}

/-- The inner loop of `StateParser._process_holes` (parser.py lines 42-46):
`for h in holes: if h.within(e): e = e.difference(h)`.  Note that `e` is
rebound, so each later `within` test is made against the already-subtracted
shell. -/
def subtract_holes (ops : GeoOps Pt Poly) (holes : List Poly) (e : Poly) : Poly :=
  holes.foldl (fun acc h => if ops.polyWithin h acc then ops.difference acc h else acc) e

/-- Embeds `StateParser._process_holes` (parser.py lines 26-47): a `Polygon` is
returned unchanged; a `MultiPolygon` is split into counter-clockwise parts
(`holes`) and the remaining parts (`exts`), every hole lying within a shell
is subtracted from it, and the corrected shells are reassembled. -/
def process_holes (ops : GeoOps Pt Poly) : Shape Poly → Shape Poly
  | .poly p => .poly p
  | .multi parts =>
      let holes := parts.filter (fun p => ops.isCCW p)
      let exts := parts.filter (fun p => !ops.isCCW p)
      .multi (exts.map (subtract_holes ops holes))

/-- The data of `containers/region.py` `Region` that resolution depends on
(`metadata` is carried along but never read by the resolver). -/
structure Region (Poly : Type) where
  btype : String
  name : String
  boundary : Shape Poly
  identifier : Option Int
deriving DecidableEq, Repr

/-- Embeds `geometry.contains(point)` for a row geometry of a regions table.
shapely's `MultiPolygon.contains` holds iff some part contains the point. -/
def shape_contains_pt (ops : GeoOps Pt Poly) : Shape Poly → Pt → Bool
  | .poly p, q => ops.containsPt p q
  | .multi ps, q => ps.any (fun p => ops.containsPt p q)

/-- Embeds `regions_table.loc[regions_table.contains(point)]`
(parser.py line 123): the rows of the layer whose geometry contains the
test point, in table order. -/
def containing_regions (ops : GeoOps Pt Poly) (point : Pt)
    (table : List (Region Poly)) : List (Region Poly) :=
  table.filter (fun r => shape_contains_pt ops r.boundary point)

/-- Embeds `StateParser._validate_boundary_results` (parser.py lines 106-119):
zero rows yield `None`, more than one row raises a `RuntimeError`
(the ambiguous-boundary error), otherwise the single row's region is
returned.  Raising is modelled by `Except.error`. -/
def validate_boundary_results (results : List (Region Poly)) :
    Except String (Option (Region Poly)) :=
  match results with
  | [] => .ok none
  | [r] => .ok (some r)
  | _ :: _ :: _ => .error "Multiple boundaries contained point"

/-- Embeds `StateParser._get_bounding_region_of_point` (parser.py lines 121-124). -/
def get_bounding_region_of_point (ops : GeoOps Pt Poly) (point : Pt)
    (table : List (Region Poly)) : Except String (Option (Region Poly)) :=
  validate_boundary_results (containing_regions ops point table)

/-- Python's `max(geoms, key=lambda p: p.area)` on a nonempty list
(parser.py line 134): the first part attaining the maximal area. -/
def largest_part (ops : GeoOps Pt Poly) (p : Poly) (ps : List Poly) : Poly :=
  ps.foldl (fun acc q => if ops.area q > ops.area acc then q else acc) p

/-- Test-point choice of `StateParser._get_bounding_region`
(parser.py lines 139-141): the centroid if it lies within the polygon,
otherwise the guaranteed-interior representative point. -/
def select_test_point (ops : GeoOps Pt Poly) (polygon : Poly) : Pt :=
  let point := ops.centroid polygon
  if ops.containsPt polygon point then point else ops.representativePoint polygon

/-- Embeds `StateParser._get_bounding_region` (parser.py lines 126-142).  A
`Point` is looked up directly; a `MultiPolygon` delegates to its
largest-area part (Python's `max` on an empty sequence raises, modelled by
`Except.error`); a `Polygon` is used as is. -/
def get_bounding_region (ops : GeoOps Pt Poly) (shape : PShape Pt Poly)
    (table : List (Region Poly)) : Except String (Option (Region Poly)) :=
  match shape with
  | .pt p => get_bounding_region_of_point ops p table
  | .multi [] => .error "max() arg is an empty sequence"
  | .multi (p :: ps) =>
      get_bounding_region_of_point ops (select_test_point ops (largest_part ops p ps)) table
  | .poly p =>
      get_bounding_region_of_point ops (select_test_point ops p) table

/-- One row of the parser's datatable as seen by a scoped-layer pass:
the precinct geometry together with the value of the parent-scope column
(e.g. the `city` assignment), which is a region or `None`. -/
structure PrecinctRow (Pt Poly : Type) where
  geometry : PShape Pt Poly
  parent : Option (Region Poly)
deriving DecidableEq, Repr

/-- The row predicate of `StateParser.parse` line 81:
`False if region is None else region.name == region_dir.name`. -/
def matches_scope (regionName : String) (parent : Option (Region Poly)) : Bool :=
  match parent with
  | none => false
  | some r => r.name == regionName

/-- Embeds `region_rows` of `StateParser.parse` line 81: the datatable restricted
to the precincts whose parent-scope assignment names the owning region. -/
def region_rows (rows : List (PrecinctRow Pt Poly)) (regionName : String) :
    List (PrecinctRow Pt Poly) :=
  rows.filter (fun row => matches_scope regionName row.parent)

/-- The per-precinct outcome of one scoped-layer pass of
`StateParser.parse` (lines 94-101): `boundaries` is computed by applying
`_get_bounding_region` to `region_rows` only, and is merged into a column
that starts as `None`, so a row outside `region_rows` keeps `None`. -/
def scoped_layer_assignments (ops : GeoOps Pt Poly)
    (rows : List (PrecinctRow Pt Poly)) (regionName : String)
    (layer : List (Region Poly)) :
    List (Except String (Option (Region Poly))) :=
  rows.map (fun row =>
    if matches_scope regionName row.parent then
      get_bounding_region ops row.geometry layer
    else
      .ok none)

/-! ### A concrete executable geometry instance

Polygons are finite sets of grid cells together with the orientation bit
that `is_ccw` reports; the shapely primitives become decidable list
operations.  This instance exists to evaluate the abstract theorems on
concrete inputs. -/

/-- A concrete polygon: an orientation bit and a finite list of occupied
grid cells. -/
structure GridPoly where
  ccw : Bool
  cells : List (Int × Int)
deriving DecidableEq, Repr

/-- Concrete geometry operations on `GridPoly`. -/
def gridOps : GeoOps (Int × Int) GridPoly where
  isCCW p := p.ccw
  polyWithin h e := h.cells.all (fun c => e.cells.contains c)
  difference e h := { ccw := e.ccw, cells := e.cells.filter (fun c => !h.cells.contains c) }
  area p := (p.cells.length : ℚ)
  centroid p :=
    let n : Int := p.cells.length
    if n = 0 then (0, 0)
    else ((p.cells.map Prod.fst).sum / n, (p.cells.map Prod.snd).sum / n)
  containsPt p q := p.cells.contains q
  representativePoint p := p.cells.headD (0, 0)

/-! ### Feature-service pagination (`fetcher.py` lines 166-200) -/

/-- The `properties` block of a feature-service page, carrying the
optional `exceededTransferLimit` flag. -/
structure PageProps where
  exceededTransferLimit : Option Bool
deriving DecidableEq, Repr

/-- One JSON response of the feature service: an optional `error` field,
an optional `properties` block, and the `features` array (rows of type
`α`). -/
structure GeoPage (α : Type) where
  err : Option String
  properties : Option PageProps
  features : List α
deriving DecidableEq, Repr

/-- The loop-exit test of `_get_boundaries_from_geojson`
(fetcher.py lines 182-188): fetching is done when the `properties` block
is missing, or its `exceededTransferLimit` flag is missing or `False`. -/
def page_done (pg : GeoPage α) : Bool :=
  match pg.properties with
  | some props =>
      match props.exceededTransferLimit with
      | none => true
      | some b => !b
  | none => true

/-- The pagination loop of `_get_boundaries_from_geojson`
(fetcher.py lines 168-197).  The server is modelled as the list of pages
it returns to successive requests; the result records, in order, the
`resultOffset` value of every GET request issued, together with the
concatenation of all received feature rows.  A payload `error` field
raises (`Except.error`); a server that keeps the transfer-limit flag set
past its last page leaves the loop requesting a page that never comes,
also modelled as an error. -/
def fetch_pages : List (GeoPage α) → Nat → Except String (List Nat × List α)
  | [], _ => .error "no response"
  | pg :: rest, offset =>
      match pg.err with
      | some e => .error ("Could not process query: " ++ e)
      | none =>
          if page_done pg then
            .ok ([offset], pg.features)
          else
            match fetch_pages rest (offset + pg.features.length) with
            | .ok (offs, rows) => .ok (offset :: offs, pg.features ++ rows)
            | .error e => .error e

/-- The sequence of `resultOffset` values the loop assigns: each request's
offset is the previous offset advanced by the number of records the
previous page carried (fetcher.py lines 172, 193-194). -/
def page_offsets : List (GeoPage α) → Nat → List Nat
  | [], _ => []
  | pg :: rest, offset => offset :: page_offsets rest (offset + pg.features.length)

/-! ### Fetch skip logic (`fetcher.py` lines 26-84) -/

/-- The observable effects of one per-layer fetch: whether remote data was
requested over the network and whether the destination artifact file was
written. -/
structure FetchEffect where
  fetchedRemote : Bool
  wroteArtifact : Bool
deriving DecidableEq, Repr

/-- Embeds `_DataFetcherHelper._fetch_from_geojson` (fetcher.py lines 26-48):
the network fetch and the write both happen only under
`overwrite_existing or not output_path.exists()`. -/
def fetch_from_geojson_effect (artifactExists overwrite_existing : Bool) : FetchEffect :=
  if overwrite_existing || !artifactExists then
    { fetchedRemote := true, wroteArtifact := true }
  else
    { fetchedRemote := false, wroteArtifact := false }

/-- Embeds `_DataFetcherHelper._fetch_from_shapefile` (fetcher.py lines 50-72):
line 68 performs the remote fetch unconditionally, before the existence
check; only the write of the artifact is guarded. -/
def fetch_from_shapefile_effect (artifactExists overwrite_existing : Bool) : FetchEffect :=
  { fetchedRemote := true, wroteArtifact := overwrite_existing || !artifactExists }

/-- Embeds `_DataFetcherHelper._fetch_from_gdb` (fetcher.py lines 74-84): same
shape as the shapefile path, the remote fetch precedes the existence
check. -/
def fetch_from_gdb_effect (artifactExists overwrite_existing : Bool) : FetchEffect :=
  { fetchedRemote := true, wroteArtifact := overwrite_existing || !artifactExists }

/-! ### Frame normalization (`fetcher.py` lines 309-331) -/

/-- One column of a (Geo)DataFrame, tagged by dtype: `strCol` is an
`object` (string) column — the dtype `select_dtypes("object")` picks —
while numeric and geometry columns are untouched by case-folding. -/
inductive ColData where
  | strCol (vals : List String)
  | intCol (vals : List Int)
  | geomCol (vals : List Nat)
deriving DecidableEq, Repr

/-- Number of rows stored in a column. -/
def col_len : ColData → Nat
  | .strCol vs => vs.length
  | .intCol vs => vs.length
  | .geomCol vs => vs.length

/-- A GeoDataFrame: an optional coordinate reference system and named
columns. -/
structure GeoFrame where
  crs : Option String
  cols : List (String × ColData)
deriving DecidableEq, Repr

/-- geopandas `GeoDataFrame.set_crs(value)` with the default
`inplace=False`: returns a new frame, leaving the receiver unchanged. -/
def set_crs (frame : GeoFrame) (value : String) : GeoFrame :=
  { frame with crs := some value }

/-- Column lookup by name (first match, as for unique pandas labels). -/
def lookup_col (frame : GeoFrame) (name : String) : Option ColData :=
  (frame.cols.find? (fun nc => nc.1 == name)).map (fun nc => nc.2)

/-- Embeds `frame[names]`: selects the named columns in the requested order;
a missing label raises a `KeyError`, modelled by `Except.error`. -/
def select_cols (frame : GeoFrame) : List String → Except String (List (String × ColData))
  | [] => .ok []
  | n :: ns =>
      match lookup_col frame n with
      | none => .error ("KeyError: " ++ n)
      | some c => (select_cols frame ns).map (fun rest => (n, c) :: rest)

/-- Embeds `frame.rename(out_fields, axis=1)`: a column whose name is a key of
the map is renamed to the mapped value; other columns keep their name. -/
def rename_cols (m : List (String × String)) (cols : List (String × ColData)) :
    List (String × ColData) :=
  cols.map (fun nc =>
    match m.find? (fun kv => kv.1 == nc.1) with
    | some kv => (kv.2, nc.2)
    | none => nc)

/-- Python `str.casefold` on the ASCII attribute data of these sources:
character-wise lowercasing. -/
def casefold_string (s : String) : String :=
  String.mk (s.data.map Char.toLower)

/-- The casefold pass of `_process_frame` (fetcher.py lines 328-330):
string (`object`) columns are case-folded value by value, other columns
are untouched. -/
def casefold_col : ColData → ColData
  | .strCol vs => .strCol (vs.map casefold_string)
  | .intCol vs => .intCol vs
  | .geomCol vs => .geomCol vs

/-- Embeds `_DataFetcherHelper._process_frame` (fetcher.py lines 309-331) with
its default `project_to_84=False`.  Line 322-323 of the source calls
`frame.set_crs("epsg:4326")` without `inplace=True` and discards the
returned frame; the embedding keeps that discarded call as an unused
binding, so the output frame carries the input's `crs` unchanged. -/
def process_frame (frame : GeoFrame) (out_fields : List (String × String))
    (lower : Bool) : Except String GeoFrame :=
  let _ := if frame.crs = none then set_crs frame "epsg:4326" else frame
  match select_cols frame (out_fields.map (fun kv => kv.1) ++ ["geometry"]) with
  | .error e => .error e
  | .ok sel =>
      let renamed := rename_cols out_fields sel
      .ok { crs := frame.crs,
            cols := if lower then renamed.map (fun nc => (nc.1, casefold_col nc.2)) else renamed }

/-! ### Fetch orchestration (`fetcher.py` lines 439-502) -/

/-- How a single layer's fetch can fail: `runtimeError` is the
`RuntimeError` class that the format adapters raise for connection,
timeout, server and query errors — the only class `StateDataFetcher.fetch`
catches; `otherError` is any other exception class (for example the
`KeyError` `_process_frame` raises when a configured source field is
missing from the response). -/
inductive LayerFailure where
  | runtimeError
  | otherError
deriving DecidableEq, Repr

/-- Embeds `StateDataFetcher.fetch` over the flattened sequence of layer
descriptors (state-level layers followed by scoped layers), given each
layer's outcome.  Returns the layers attempted in order, the failures
caught and recorded by the per-layer `except RuntimeError` handler, and
the layer (if any) whose uncaught exception aborted the run. -/
def fetch_run (behavior : α → Option LayerFailure) :
    List α → List α × List α × Option α
  | [] => ([], [], none)
  | l :: ls =>
      match behavior l with
      | none =>
          let r := fetch_run behavior ls
          (l :: r.1, r.2.1, r.2.2)
      | some .runtimeError =>
          let r := fetch_run behavior ls
          (l :: r.1, l :: r.2.1, r.2.2)
      | some .otherError => ([l], [], some l)

/-! ## Concrete fixtures for witnesses -/

/-- A clockwise one-cell polygon far from the origin. -/
def sqFar : GridPoly := { ccw := false, cells := [(5, 5)] }

/-- A clockwise two-cell polygon containing the origin. -/
def sqA : GridPoly := { ccw := false, cells := [(0, 0), (1, 0)] }

/-- A second clockwise polygon overlapping `sqA` at the origin. -/
def sqB : GridPoly := { ccw := false, cells := [(0, 0), (0, 1)] }

/-- A county region over `sqA`. -/
def regionA : Region GridPoly := { btype := "county", name := "a", boundary := .poly sqA, identifier := none }

/-- A county region over `sqB`, overlapping `regionA`. -/
def regionB : Region GridPoly := { btype := "county", name := "b", boundary := .poly sqB, identifier := none }

/-- A county region over `sqFar`, away from the origin. -/
def regionFar : Region GridPoly := { btype := "county", name := "far", boundary := .poly sqFar, identifier := none }

/-! ## C1: three-way match validation -/

/-- C1: for every test point and candidate layer, resolution is three-way:
zero containing regions yield `None` (absent); exactly one containing
region is the assignment; more than one containing region raises the
ambiguous-boundary error instead of picking a region by area or
first-match order. -/
theorem resolver_three_way (ops : GeoOps Pt Poly) (point : Pt)
    (table : List (Region Poly)) :
    (containing_regions ops point table = [] →
      get_bounding_region_of_point ops point table = .ok none) ∧
    (∀ r, containing_regions ops point table = [r] →
      get_bounding_region_of_point ops point table = .ok (some r)) ∧
    (2 ≤ (containing_regions ops point table).length →
      ∃ msg, get_bounding_region_of_point ops point table = .error msg) := by
  unfold get_bounding_region_of_point
  rcases h : containing_regions ops point table with _ | ⟨a, _ | ⟨b, l⟩⟩ <;>
    simp_all [validate_boundary_results]

/-- Witness for `resolver_three_way` at concrete inputs: a layer missing
the point, a layer containing it once, and two overlapping regions. -/
theorem resolver_three_way_witness :
    get_bounding_region_of_point gridOps ((0 : Int), (0 : Int)) [regionFar] = .ok none ∧
    get_bounding_region_of_point gridOps ((0 : Int), (0 : Int)) [regionA, regionFar] = .ok (some regionA) ∧
    ∃ msg, get_bounding_region_of_point gridOps ((0 : Int), (0 : Int)) [regionA, regionB] = .error msg :=
  ⟨(resolver_three_way gridOps ((0 : Int), (0 : Int)) [regionFar]).1 (by decide),
   (resolver_three_way gridOps ((0 : Int), (0 : Int)) [regionA, regionFar]).2.1 regionA (by decide),
   (resolver_three_way gridOps ((0 : Int), (0 : Int)) [regionA, regionB]).2.2 (by decide)⟩

/-! ## C7: containment test-point selection -/

/-- The fold of `largest_part` stays within the candidate parts. -/
theorem largest_part_mem (ops : GeoOps Pt Poly) (p : Poly) (ps : List Poly) :
    largest_part ops p ps ∈ p :: ps := by
  induction ps generalizing p with
  | nil => simp [largest_part]
  | cons q qs ih =>
    have e : largest_part ops p (q :: qs) =
        largest_part ops (if ops.area q > ops.area p then q else p) qs := rfl
    rw [e]
    rcases List.mem_cons.mp (ih (if ops.area q > ops.area p then q else p)) with h1 | h2
    · rw [h1]
      split
      · exact List.mem_cons_of_mem _ (List.mem_cons_self _ _)
      · exact List.mem_cons_self _ _
    · exact List.mem_cons_of_mem _ (List.mem_cons_of_mem _ h2)

/-- The fold of `largest_part` dominates the area of every candidate. -/
theorem largest_part_le (ops : GeoOps Pt Poly) (p : Poly) (ps : List Poly) :
    ∀ q ∈ p :: ps, ops.area q ≤ ops.area (largest_part ops p ps) := by
  induction ps generalizing p with
  | nil =>
    intro q hq
    rcases List.mem_cons.mp hq with rfl | h
    · simp [largest_part]
    · simp at h
  | cons r rs ih =>
    intro q hq
    have e : largest_part ops p (r :: rs) =
        largest_part ops (if ops.area r > ops.area p then r else p) rs := rfl
    rw [e]
    have head_le : ops.area (if ops.area r > ops.area p then r else p) ≤
        ops.area (largest_part ops (if ops.area r > ops.area p then r else p) rs) :=
      ih _ _ (List.mem_cons_self _ _)
    rcases List.mem_cons.mp hq with rfl | hq'
    · refine le_trans ?_ head_le
      split
      · exact le_of_lt ‹_›
      · exact le_refl _
    · rcases List.mem_cons.mp hq' with rfl | hq''
      · refine le_trans ?_ head_le
        split
        · exact le_refl _
        · exact le_of_not_lt ‹_›
      · exact ih _ q (List.mem_cons_of_mem _ hq'')

/-- C7: the containment test point is chosen from the largest-area part of
a `MultiPolygon` (or the `Polygon` itself): the part's centroid when the
centroid lies within the part, otherwise its guaranteed-interior
representative point. -/
theorem point_selection_policy (ops : GeoOps Pt Poly) (p : Poly) (ps : List Poly)
    (table : List (Region Poly)) :
    (get_bounding_region ops (.poly p) table =
      get_bounding_region_of_point ops (select_test_point ops p) table) ∧
    (get_bounding_region ops (.multi (p :: ps)) table =
      get_bounding_region_of_point ops (select_test_point ops (largest_part ops p ps)) table) ∧
    (largest_part ops p ps ∈ p :: ps) ∧
    (∀ q ∈ p :: ps, ops.area q ≤ ops.area (largest_part ops p ps)) ∧
    (∀ poly2, ops.containsPt poly2 (ops.centroid poly2) = true →
      select_test_point ops poly2 = ops.centroid poly2) ∧
    (∀ poly2, ops.containsPt poly2 (ops.centroid poly2) = false →
      select_test_point ops poly2 = ops.representativePoint poly2) := by
  refine ⟨rfl, rfl, largest_part_mem ops p ps, largest_part_le ops p ps, ?_, ?_⟩
  · intro poly2 hc
    simp [select_test_point, hc]
  · intro poly2 hc
    simp [select_test_point, hc]

/-- Witness for `point_selection_policy` on concrete polygons: the larger
part `sqA` wins, its centroid `(0, 0)` lies inside and is used. -/
theorem point_selection_policy_witness :
    (get_bounding_region gridOps (.multi [sqA, sqFar]) [regionFar] =
      get_bounding_region_of_point gridOps
        (select_test_point gridOps (largest_part gridOps sqA [sqFar])) [regionFar]) ∧
    gridOps.area sqFar ≤ gridOps.area (largest_part gridOps sqA [sqFar]) ∧
    select_test_point gridOps sqA = gridOps.centroid sqA :=
  ⟨(point_selection_policy gridOps sqA [sqFar] [regionFar]).2.1,
   (point_selection_policy gridOps sqA [sqFar] [regionFar]).2.2.2.1 sqFar
     (by decide),
   (point_selection_policy gridOps sqA [sqFar] [regionFar]).2.2.2.2.1 sqA
     (by decide)⟩

/-! ## C3: geometry sanitizer behavior -/

/-- C3: a `Polygon` passes through the sanitizer unchanged; a
`MultiPolygon` is partitioned by ring orientation into holes (CCW) and
shells, each shell has the holes lying within it subtracted, and the
corrected shells are reassembled; in particular, one CCW hole inside one
CW shell yields exactly the shell minus the hole. -/
theorem sanitizer_behavior (ops : GeoOps Pt Poly) (p : Poly) (parts : List Poly)
    (e h : Poly) :
    (process_holes ops (.poly p) = .poly p) ∧
    (process_holes ops (.multi parts) =
      .multi ((parts.filter (fun q => !ops.isCCW q)).map
        (subtract_holes ops (parts.filter (fun q => ops.isCCW q))))) ∧
    (ops.isCCW h = true → ops.isCCW e = false → ops.polyWithin h e = true →
      process_holes ops (.multi [e, h]) = .multi [ops.difference e h]) := by
  refine ⟨rfl, rfl, ?_⟩
  intro hh he hw
  simp [process_holes, subtract_holes, hh, he, hw]

/-- A clockwise shell for sanitizer witnesses. -/
def shellC : GridPoly := { ccw := false, cells := [(0, 0), (1, 0), (2, 0), (1, 1)] }

/-- A counter-clockwise one-cell hole inside `shellC`. -/
def holeC : GridPoly := { ccw := true, cells := [(1, 1)] }

/-- Witness for `sanitizer_behavior`: the single-shell single-hole case on
concrete grid polygons. -/
theorem sanitizer_behavior_witness :
    process_holes gridOps (.multi [shellC, holeC]) =
      .multi [gridOps.difference shellC holeC] :=
  (sanitizer_behavior gridOps shellC [] shellC holeC).2.2 (by decide) (by decide)
    (by decide)

/-! ## C4: sanitizer idempotence -/

/-- A geometry that is already correct in the sense of C4: a single-part
`MultiPolygon` whose holes (none) are interior rings — but with a
counter-clockwise exterior ring. -/
def ccwOnly : GridPoly := { ccw := true, cells := [(0, 0), (0, 1), (1, 0), (1, 1)] }

/-- C4 counterexample: an already-correct `MultiPolygon` (one part, no
separate hole parts) whose exterior ring is counter-clockwise is
classified entirely as holes and collapses to the empty `MultiPolygon`
instead of being returned unchanged. -/
theorem sanitizer_changes_ccw_correct_geometry :
    process_holes gridOps (Shape.multi [ccwOnly]) = Shape.multi [] ∧
    process_holes gridOps (Shape.multi [ccwOnly]) ≠ Shape.multi [ccwOnly] := by
  decide

/-- Subtracting holes never flips a clockwise shell to counter-clockwise,
provided `difference` preserves the shell's orientation. -/
theorem subtract_holes_not_ccw (ops : GeoOps Pt Poly)
    (hpres : ∀ e h, ops.isCCW e = false → ops.isCCW (ops.difference e h) = false)
    (holes : List Poly) (e : Poly) (he : ops.isCCW e = false) :
    ops.isCCW (subtract_holes ops holes e) = false := by
  induction holes generalizing e with
  | nil => simpa [subtract_holes] using he
  | cons h hs ih =>
    have step : subtract_holes ops (h :: hs) e =
        subtract_holes ops hs (if ops.polyWithin h e then ops.difference e h else e) := rfl
    rw [step]
    apply ih
    split
    · exact hpres e h he
    · exact he

/-- A `MultiPolygon` all of whose parts are clockwise passes through the
sanitizer unchanged: no part is classified as a hole. -/
theorem process_holes_all_shells (ops : GeoOps Pt Poly) (parts : List Poly)
    (hall : ∀ q ∈ parts, ops.isCCW q = false) :
    process_holes ops (.multi parts) = .multi parts := by
  have h1 : parts.filter (fun q => ops.isCCW q) = [] := by
    rw [List.filter_eq_nil_iff]
    intro a ha
    simp [hall a ha]
  have h2 : parts.filter (fun q => !ops.isCCW q) = parts := by
    rw [List.filter_eq_self]
    intro a ha
    simp [hall a ha]
  calc process_holes ops (.multi parts)
      = Shape.multi ((parts.filter (fun q => !ops.isCCW q)).map
          (subtract_holes ops (parts.filter (fun q => ops.isCCW q)))) := rfl
    _ = Shape.multi parts := by
          rw [h1, h2]
          have hid : subtract_holes ops [] = id := funext fun _ => rfl
          rw [hid, List.map_id]

/-- Applying the sanitizer twice equals applying it once, provided
`difference` preserves the orientation of the shell it carves
(as the GEOS overlay operations backing shapely do). -/
theorem process_holes_idem (ops : GeoOps Pt Poly)
    (hpres : ∀ e h, ops.isCCW e = false → ops.isCCW (ops.difference e h) = false)
    (g : Shape Poly) :
    process_holes ops (process_holes ops g) = process_holes ops g := by
  cases g with
  | poly p => rfl
  | multi parts =>
    have step : process_holes ops (.multi parts) =
        Shape.multi ((parts.filter (fun q => !ops.isCCW q)).map
          (subtract_holes ops (parts.filter (fun q => ops.isCCW q)))) := rfl
    rw [step]
    apply process_holes_all_shells
    intro q hq
    rcases List.mem_map.mp hq with ⟨e, he, rfl⟩
    have he' : ops.isCCW e = false := by
      have := List.of_mem_filter he
      simpa using this
    exact subtract_holes_not_ccw ops hpres _ e he'

/-- C4 amended: the sanitizer is idempotent provided `difference`
preserves shell orientation, and an already-correct geometry is returned
unchanged only when its parts' exterior rings are clockwise (a `Polygon`
always passes through; a correct `MultiPolygon` with counter-clockwise
exteriors is instead emptied, per the counterexample). -/
theorem sanitizer_idempotent_amended (ops : GeoOps Pt Poly) (g : Shape Poly)
    (parts : List Poly)
    (hpres : ∀ e h, ops.isCCW e = false → ops.isCCW (ops.difference e h) = false) :
    process_holes ops (process_holes ops g) = process_holes ops g ∧
    ((∀ q ∈ parts, ops.isCCW q = false) →
      process_holes ops (.multi parts) = .multi parts) :=
  ⟨process_holes_idem ops hpres g,
   fun hall => process_holes_all_shells ops parts hall⟩

/-- Witness for `sanitizer_idempotent_amended` on concrete grid polygons:
sanitizing the shell-with-hole multipolygon twice equals sanitizing once,
and an all-clockwise multipolygon is unchanged. -/
theorem sanitizer_idempotent_amended_witness :
    process_holes gridOps (process_holes gridOps (Shape.multi [shellC, holeC])) =
      process_holes gridOps (Shape.multi [shellC, holeC]) ∧
    process_holes gridOps (Shape.multi [sqA, sqB]) = Shape.multi [sqA, sqB] :=
  ⟨(sanitizer_idempotent_amended gridOps (Shape.multi [shellC, holeC]) [sqA, sqB]
      (fun _ _ he => he)).1,
   (sanitizer_idempotent_amended gridOps (Shape.multi [shellC, holeC]) [sqA, sqB]
      (fun _ _ he => he)).2 (by decide)⟩

/-! ## C6: scoped layers test only precincts assigned to the owning region -/

/-- C6: during a scoped-layer pass for the layer owned by `regionName`, a
precinct whose parent-scope assignment is absent or names a different
region is excluded from `region_rows` (so its geometry is never tested
against the layer) and its assignment from that pass is `None`. -/
theorem scoped_layer_skips_unassigned (ops : GeoOps Pt Poly)
    (rows : List (PrecinctRow Pt Poly)) (regionName : String)
    (layer : List (Region Poly)) (i : Nat) (hi : i < rows.length)
    (hskip : matches_scope regionName rows[i].parent = false) :
    rows[i] ∉ region_rows rows regionName ∧
    (scoped_layer_assignments ops rows regionName layer)[i]? =
      some (.ok none) := by
  constructor
  · intro hmem
    have h := List.mem_filter.mp hmem
    rw [hskip] at h
    exact absurd h.2 (by simp)
  · have hmap : (scoped_layer_assignments ops rows regionName layer)[i]? =
        rows[i]?.map (fun row =>
          if matches_scope regionName row.parent then
            get_bounding_region ops row.geometry layer
          else
            .ok none) := by
      simp [scoped_layer_assignments]
    rw [hmap, List.getElem?_eq_getElem hi]
    simp [hskip]

/-- A precinct row assigned to city `x`. -/
def rowInX : PrecinctRow (Int × Int) GridPoly :=
  { geometry := .poly sqA,
    parent := some { btype := "city", name := "x", boundary := .poly sqA, identifier := none } }

/-- A precinct row assigned to city `y`. -/
def rowInY : PrecinctRow (Int × Int) GridPoly :=
  { geometry := .poly sqB,
    parent := some { btype := "city", name := "y", boundary := .poly sqB, identifier := none } }

/-- A precinct row with no city assignment. -/
def rowNoCity : PrecinctRow (Int × Int) GridPoly :=
  { geometry := .poly sqFar, parent := none }

/-- Witness for `scoped_layer_skips_unassigned`: in a pass for city `x`,
the row assigned to city `y` and the row with no assignment are skipped
and keep `None`. -/
theorem scoped_layer_skips_unassigned_witness :
    (rowInY ∉ region_rows [rowInX, rowInY, rowNoCity] "x" ∧
      (scoped_layer_assignments gridOps [rowInX, rowInY, rowNoCity] "x" [regionA])[1]? =
        some (.ok none)) ∧
    (rowNoCity ∉ region_rows [rowInX, rowInY, rowNoCity] "x" ∧
      (scoped_layer_assignments gridOps [rowInX, rowInY, rowNoCity] "x" [regionA])[2]? =
        some (.ok none)) :=
  ⟨scoped_layer_skips_unassigned gridOps [rowInX, rowInY, rowNoCity] "x" [regionA]
      1 (by decide) (by decide),
   scoped_layer_skips_unassigned gridOps [rowInX, rowInY, rowNoCity] "x" [regionA]
      2 (by decide) (by decide)⟩

/-! ## C2: feature-service pagination -/

/-- Unfolding of the pagination loop on a run of not-done pages followed
by one done page: every page triggers one request at the running offset,
and all feature rows are concatenated in order. -/
theorem fetch_pages_spec_aux {α : Type} (init : List (GeoPage α)) (pgLast : GeoPage α)
    (hinit : ∀ pg ∈ init, pg.err = none ∧ page_done pg = false)
    (herr : pgLast.err = none) (hdone : page_done pgLast = true) (offset : Nat) :
    fetch_pages (init ++ [pgLast]) offset =
      .ok (page_offsets (init ++ [pgLast]) offset,
           ((init ++ [pgLast]).map GeoPage.features).flatten) := by
  induction init generalizing offset with
  | nil =>
    simp [fetch_pages, herr, hdone, page_offsets]
  | cons pg rest ih =>
    have h1 := hinit pg (List.mem_cons_self _ _)
    have h2 : ∀ q ∈ rest, q.err = none ∧ page_done q = false :=
      fun q hq => hinit q (List.mem_cons_of_mem _ hq)
    simp [fetch_pages, h1.1, h1.2, page_offsets, ih h2]

/-- The request offsets are exactly the cumulative feature counts of the
preceding pages, shifted by the starting offset. -/
theorem page_offsets_eq {α : Type} (ps : List (GeoPage α)) (n : Nat) :
    page_offsets ps n = (List.range ps.length).map
      (fun i => n + ((ps.take i).map (fun pg => pg.features.length)).sum) := by
  induction ps generalizing n with
  | nil => simp [page_offsets]
  | cons pg rest ih =>
    simp only [page_offsets, List.length_cons, List.range_succ_eq_map,
      List.map_cons, List.map_map, List.take_zero, List.map_nil,
      List.sum_nil, Nat.add_zero, ih]
    congr 1
    apply List.map_congr_left
    intro i _
    simp [List.take_succ_cons, Nat.add_assoc, Function.comp_def]

/-- C2: for a feature service answering with pages whose transfer-limit
flag is set on all but the last (the last having the flag absent, false,
or no properties block), the adapter issues exactly one GET per page, the
`resultOffset` of each request equals the number of records received in
all previous pages (starting at 0), and the result is the in-order
concatenation of all pages with total row count the sum of page sizes. -/
theorem feature_service_pagination {α : Type} (init : List (GeoPage α))
    (pgLast : GeoPage α)
    (hinit : ∀ pg ∈ init, pg.err = none ∧ page_done pg = false)
    (herr : pgLast.err = none) (hdone : page_done pgLast = true) :
    fetch_pages (init ++ [pgLast]) 0 =
      .ok (page_offsets (init ++ [pgLast]) 0,
           ((init ++ [pgLast]).map GeoPage.features).flatten) ∧
    (page_offsets (init ++ [pgLast]) 0).length = init.length + 1 ∧
    page_offsets (init ++ [pgLast]) 0 =
      (List.range (init.length + 1)).map
        (fun i => (((init ++ [pgLast]).take i).map (fun pg => pg.features.length)).sum) ∧
    (((init ++ [pgLast]).map GeoPage.features).flatten).length =
      ((init ++ [pgLast]).map (fun pg => pg.features.length)).sum := by
  refine ⟨fetch_pages_spec_aux init pgLast hinit herr hdone 0, ?_, ?_, ?_⟩
  · rw [page_offsets_eq]
    simp
  · have h := page_offsets_eq (init ++ [pgLast]) 0
    simpa using h
  · simp only [List.length_flatten, List.map_map]
    rfl

/-- A first page with the transfer-limit flag set, carrying rows 10, 11. -/
def pageOne : GeoPage Nat :=
  { err := none, properties := some { exceededTransferLimit := some true }, features := [10, 11] }

/-- A final page with the flag false, carrying row 12. -/
def pageTwo : GeoPage Nat :=
  { err := none, properties := some { exceededTransferLimit := some false }, features := [12] }

/-- Witness for `feature_service_pagination` on a concrete two-page
service: requests at offsets 0 and 2, three rows in order. -/
theorem feature_service_pagination_witness :
    fetch_pages ([pageOne] ++ [pageTwo]) 0 =
      .ok (page_offsets ([pageOne] ++ [pageTwo]) 0,
           (([pageOne] ++ [pageTwo]).map GeoPage.features).flatten) ∧
    page_offsets ([pageOne] ++ [pageTwo]) 0 = [0, 2] ∧
    (([pageOne] ++ [pageTwo]).map GeoPage.features).flatten = [10, 11, 12] :=
  ⟨(feature_service_pagination [pageOne] pageTwo (by decide) (by decide) (by decide)).1,
   by decide, by decide⟩

/-! ## C5: skip-if-exists fetch -/

/-- C5 divergence, evaluated on the code: with the artifact present and
`overwrite_existing=False`, the geojson path skips both the network fetch
and the write, but the shapefile and gdb paths still fetch remote data
(only the write is skipped), contradicting their own docstrings
("if False, does not fetch remote data"). -/
theorem fetch_skip_by_format :
    fetch_from_geojson_effect true false =
      { fetchedRemote := false, wroteArtifact := false } ∧
    fetch_from_shapefile_effect true false =
      { fetchedRemote := true, wroteArtifact := false } ∧
    fetch_from_gdb_effect true false =
      { fetchedRemote := true, wroteArtifact := false } := by
  decide

/-! ## C8: default CRS on normalization -/

/-- A raw frame carrying no coordinate reference system. -/
def frame_no_crs : GeoFrame :=
  { crs := none,
    cols := [("CITY_NM", .strCol ["seattle"]), ("geometry", .geomCol [0])] }

/-- C8 divergence, evaluated on the code: for a frame with no CRS,
`_process_frame` returns a frame that still has no CRS — the
`frame.set_crs("epsg:4326")` call on line 323 is not in-place and its
result is discarded, so the documented WGS84 default is never applied. -/
theorem process_frame_crs_not_set :
    (process_frame frame_no_crs [("CITY_NM", "name")] true).map GeoFrame.crs =
      .ok none := by
  rfl

/-! ## C9: per-layer error isolation in the fetch orchestrator -/

/-- Layer outcomes where layer 0 fails with a non-`RuntimeError`
exception (e.g. a `KeyError` from `_process_frame` for a missing source
field). -/
def behavior_other_first : Nat → Option LayerFailure :=
  fun l => if l == 0 then some .otherError else none

/-- C9 counterexample: when the first layer fails with an exception that
is not a `RuntimeError`, the failure is not recorded and the remaining
layer is never attempted — the run aborts instead of continuing. -/
theorem fetch_run_aborts_on_other_error :
    fetch_run behavior_other_first [0, 1] = ([0], [], some 0) ∧
    (fetch_run behavior_other_first [0, 1]).1 ≠ [0, 1] := by
  decide

/-- C9 amended: if every per-layer failure is of the `RuntimeError` class
(the wrapper the format adapters use for connection, timeout, server and
query errors — the only class `StateDataFetcher.fetch` catches), then all
layers are attempted in order, the run does not abort, and exactly the
failing layers are recorded. -/
theorem fetch_run_isolates_runtime_errors {α : Type}
    (behavior : α → Option LayerFailure) (ls : List α)
    (hruntime : ∀ l ∈ ls, behavior l ≠ some LayerFailure.otherError) :
    (fetch_run behavior ls).1 = ls ∧
    (fetch_run behavior ls).2.2 = none ∧
    (fetch_run behavior ls).2.1 = ls.filter (fun l =>
      match behavior l with
      | some LayerFailure.runtimeError => true
      | _ => false) := by
  induction ls with
  | nil => exact ⟨rfl, rfl, rfl⟩
  | cons l ls ih =>
    have hl := hruntime l (List.mem_cons_self _ _)
    have hrest : ∀ q ∈ ls, behavior q ≠ some LayerFailure.otherError :=
      fun q hq => hruntime q (List.mem_cons_of_mem _ hq)
    rcases hb : behavior l with _ | f
    · have h := ih hrest
      simp [fetch_run, hb, h.1, h.2.1, h.2.2]
    · cases f with
      | runtimeError =>
        have h := ih hrest
        simp [fetch_run, hb, h.1, h.2.1, h.2.2]
      | otherError => exact absurd hb hl

/-- Layer outcomes where layer 1 fails with a `RuntimeError` and the rest
succeed. -/
def behavior_runtime_mid : Nat → Option LayerFailure :=
  fun l => if l == 1 then some .runtimeError else none

/-- Witness for `fetch_run_isolates_runtime_errors` on three concrete
layers: all are attempted, the run does not abort, only layer 1 is
recorded as failed. -/
theorem fetch_run_isolates_runtime_errors_witness :
    (fetch_run behavior_runtime_mid [0, 1, 2]).1 = [0, 1, 2] ∧
    (fetch_run behavior_runtime_mid [0, 1, 2]).2.2 = none ∧
    (fetch_run behavior_runtime_mid [0, 1, 2]).2.1 = [0, 1, 2].filter (fun l =>
      match behavior_runtime_mid l with
      | some LayerFailure.runtimeError => true
      | _ => false) :=
  fetch_run_isolates_runtime_errors behavior_runtime_mid [0, 1, 2] (by decide)

/-! ## C10: frame normalization preserves records -/

/-- The output name `frame.rename(m, axis=1)` gives column `n`. -/
def rename_of (m : List (String × String)) (n : String) : String :=
  match m.find? (fun kv => kv.1 == n) with
  | some kv => kv.2
  | none => n

/-- Column selection succeeds on present labels and returns each looked-up
column, paired with its name, in the requested order. -/
theorem select_cols_eq (frame : GeoFrame) (names : List String)
    (h : ∀ n ∈ names, (lookup_col frame n).isSome = true) :
    select_cols frame names =
      .ok (names.map (fun n => (n, (lookup_col frame n).getD (ColData.intCol [])))) := by
  induction names with
  | nil => rfl
  | cons n ns ih =>
    have hn := h n (List.mem_cons_self _ _)
    rcases hx : lookup_col frame n with _ | c
    · rw [hx] at hn
      simp at hn
    · simp [select_cols, hx, Except.map, ih (fun q hq => h q (List.mem_cons_of_mem _ hq))]

/-- Renaming a selection of named columns renames each name via
`rename_of` and leaves the column data untouched. -/
theorem rename_cols_map (m : List (String × String)) (names : List String)
    (f : String → ColData) :
    rename_cols m (names.map (fun n => (n, f n))) =
      names.map (fun n => (rename_of m n, f n)) := by
  simp only [rename_cols, List.map_map]
  apply List.map_congr_left
  intro n _
  simp only [Function.comp_def]
  unfold rename_of
  cases List.find? (fun kv => kv.1 == n) m <;> rfl

/-- C10: when every key of the field map (and `geometry`) names a column
of the input, normalization succeeds and each output column is exactly the
corresponding input column — renamed, and with string values case-folded
in place — so the output has the same rows in the same order as the
input, none dropped, added, or reordered. -/
theorem process_frame_preserves_rows (frame : GeoFrame)
    (m : List (String × String)) (lower : Bool)
    (hkeys : ∀ n ∈ m.map (fun kv => kv.1) ++ ["geometry"],
      (lookup_col frame n).isSome = true) :
    process_frame frame m lower = .ok
      { crs := frame.crs,
        cols := (m.map (fun kv => kv.1) ++ ["geometry"]).map (fun n =>
          (rename_of m n,
           (if lower then
              casefold_col ((lookup_col frame n).getD (ColData.intCol []))
            else
              (lookup_col frame n).getD (ColData.intCol [])))) } ∧
    (∀ c, col_len (casefold_col c) = col_len c) ∧
    (∀ vs, casefold_col (ColData.strCol vs) = ColData.strCol (vs.map casefold_string)) := by
  refine ⟨?_, ?_, fun vs => rfl⟩
  · unfold process_frame
    rw [select_cols_eq frame _ hkeys]
    simp only [rename_cols_map]
    cases lower with
    | false => simp
    | true => simp [List.map_map, Function.comp_def]
  · intro c
    cases c <;> simp [casefold_col, col_len]

/-- A raw frame in WGS84 with an extra column `COUNTY_NM` that the field
map does not select. -/
def frame_norm : GeoFrame :=
  { crs := some "epsg:4326",
    cols := [("CITY_NM", .strCol ["Seattle", "TACOMA"]),
             ("OBJECTID", .intCol [1, 2]),
             ("COUNTY_NM", .strCol ["king", "pierce"]),
             ("geometry", .geomCol [0, 1])] }

/-- Witness for `process_frame_preserves_rows`: the concrete frame keeps
both rows in order, with renamed columns and lowercased strings, and the
unselected column dropped. -/
theorem process_frame_preserves_rows_witness :
    process_frame frame_norm [("OBJECTID", "id"), ("CITY_NM", "name")] true =
      .ok { crs := some "epsg:4326",
            cols := [("id", .intCol [1, 2]),
                     ("name", .strCol ["seattle", "tacoma"]),
                     ("geometry", .geomCol [0, 1])] } := by
  have h := (process_frame_preserves_rows frame_norm
    [("OBJECTID", "id"), ("CITY_NM", "name")] true (by decide)).1
  exact h.trans (by rfl)

end PrecinctMapper
